import Mathlib

/-
Shallow embedding of the canvas line-graph rendering engine of this
repository (src/src/line-graph.ts, the version before the related-doc
separator, which is the one the claims cite).  Numbers are embedded as
exact rationals; drawing is embedded as the list of calls issued on the
2D context, and the mutable context state is recovered by folding an
interpreter over that list.  The two for loops that render axis ticks
are embedded with an explicit fuel argument because the source loop has
no guard against a non-positive step and can genuinely fail to
terminate; a result of none means the loop was still running when the
fuel ran out, for every fuel.  A small IEEE-style number model (JSNum)
re-embeds, at higher numeric fidelity, the two code paths where the
source divides by zero or reads a missing array element, so that the
silent NaN/Infinity behaviour of those paths can be evaluated exactly.
-/

set_option maxHeartbeats 1000000

namespace CanvasLib

/-- Data model of src/src/line-graph.ts: one sample of a series, with a
time coordinate and an elevation. -/
structure DataPoint where
  time : ℚ
  elevation : ℚ
deriving DecidableEq

/-- Scale options of one axis; min, max and step are required in the
source interface, the rest is optional. -/
structure ScaleOpts where
  min : ℚ
  max : ℚ
  step : ℚ
  decimalPlaces : Option ℕ := none
  showDecimals : Option Bool := none
  labelOffset : Option ℚ := none
deriving DecidableEq

/-- Padding record of the AxisOptions interface; every field is optional. -/
structure Padding where
  top : Option ℚ := none
  bottom : Option ℚ := none
  left : Option ℚ := none
  right : Option ℚ := none
deriving DecidableEq

/-- DrawOptions of the source: optional presentation overrides. -/
structure DrawOptions where
  color : Option String := none
  lineWidth : Option ℚ := none
  fillColor : Option String := none
  font : Option String := none
  lineDash : Option (List ℚ) := none
  angle : Option ℚ := none
deriving DecidableEq

/-- AxisOptions of the source. -/
structure AxisOptions where
  fontSize : Option ℚ := none
  fontColor : Option String := none
  font : Option String := none
  padding : Option Padding := none
  xScale : Option ScaleOpts := none
  yScale : Option ScaleOpts := none
  xLabel : Option String := none
  yLabel : Option String := none
  xAxisStyle : Option DrawOptions := none
  yAxisStyle : Option DrawOptions := none
deriving DecidableEq

/-- The LineGraph instance state: the constructor stores the fixed
width and height; the canvas handle itself carries no further data in
the embedding. -/
structure LineGraph where
  width : ℚ
  height : ℚ
deriving DecidableEq

/-- One call issued on the 2D canvas context.  Assignments to context
fields (strokeStyle, fillStyle, font, textAlign, lineWidth, lineDash)
are recorded as set operations; rotateDeg records the argument of
ctx.rotate in degrees, the source converts degrees to radians inline. -/
inductive CanvasOp (α : Type) where
  | beginPath
  | moveTo (x y : α)
  | lineTo (x y : α)
  | closePath
  | stroke
  | fill
  | fillText (s : String) (x y : α)
  | setStrokeStyle (c : String)
  | setFillStyle (c : String)
  | setLineWidth (w : α)
  | setLineDash (d : List α)
  | setFont (f : String)
  | setTextAlign (a : String)
  | save
  | restore
  | translate (x y : α)
  | rotateDeg (deg : α)
deriving DecidableEq

/-- JS truthiness of an optional string: undefined and the empty string
are falsy. -/
def truthyS : Option String → Bool
  | none => false
  | some s => s != ""

/-- JS truthiness of an optional number: undefined and 0 are falsy. -/
def truthyN : Option ℚ → Bool
  | none => false
  | some q => q != 0

/-- JS truthiness of an optional array: undefined is falsy, any array
object (even empty) is truthy. -/
def truthyL : Option (List ℚ) → Bool
  | none => false
  | some _ => true

/-- The JS fallback expression a-or-else-b for an optional string with a
string literal fallback, as in the source expression color-or-black. -/
def strOr (a : Option String) (b : String) : String :=
  match a with
  | none => b
  | some s => if s == "" then b else s

/-- Rendering of a number into a string, used only to build label text.
Exact for integers, which covers every concrete label in the claims;
a non-integral rational is rendered as num/den rather than in the JS
decimal form (no claim inspects such a label). -/
def ratStr (q : ℚ) : String :=
  if q.den == 1 then toString q.num else toString q.num ++ "/" ++ toString q.den

/-- Math.round of the source label formatting: nearest integer with
ties rounded toward positive infinity, computed by floor division so
that it evaluates inside the kernel. -/
def jsRound (q : ℚ) : ℤ := Int.fdiv (2 * q.num + q.den) (2 * q.den)

/-- Number.prototype.toFixed with d digits: the integer n closest to
q times ten to the d (larger n on ties), rendered with a decimal point
and zero padding. -/
def toFixed (q : ℚ) (d : ℕ) : String :=
  let p : ℚ := q * (10 : ℚ) ^ d
  let n : ℤ := Int.fdiv (2 * p.num + p.den) (2 * p.den)
  if d == 0 then toString n
  else
    let a := n.natAbs
    let ip := a / 10 ^ d
    let fp := a % 10 ^ d
    let fs := toString fp
    let pad := String.mk (List.replicate (d - fs.length) (Char.ofNat 48))
    (if n < 0 then "-" else "") ++ toString ip ++ "." ++ pad ++ fs

/-- Map with the element index, embedding the source forEach callbacks
that receive (element, index). -/
def idxMap (f : ℕ → α → β) : ℕ → List α → List β
  | _, [] => []
  | i, a :: as => f i a :: idxMap f (i + 1) as

/-- LineGraph.drawLine (lines 69 to 83): begin a path, move, draw the
segment, apply the truthy style overrides, stroke. -/
def drawLine (x1 y1 x2 y2 : ℚ) (options : DrawOptions) : List (CanvasOp ℚ) :=
  [CanvasOp.beginPath, CanvasOp.moveTo x1 y1, CanvasOp.lineTo x2 y2]
    ++ (match options.color with
        | some c => if c != "" then [CanvasOp.setStrokeStyle c] else []
        | none => [])
    ++ (match options.lineWidth with
        | some w => if w != 0 then [CanvasOp.setLineWidth w] else []
        | none => [])
    ++ (match options.lineDash with
        | some d => [CanvasOp.setLineDash d]
        | none => [])
    ++ [CanvasOp.stroke]

/-- LineGraph.drawText (lines 103 to 123).  With a truthy angle the
context is saved, translated to the anchor, rotated, the glyph painted
at the local origin and the context restored; otherwise the truthy
style overrides are applied and the glyph painted at the anchor. -/
def drawText (text : String) (x y : ℚ) (options : DrawOptions) : List (CanvasOp ℚ) :=
  if truthyN options.angle then
    [CanvasOp.save, CanvasOp.translate x y,
     CanvasOp.rotateDeg (options.angle.getD 0),
     CanvasOp.setFillStyle (strOr options.color "black"),
     CanvasOp.setFont (strOr options.font "12px Arial"),
     CanvasOp.fillText text 0 0, CanvasOp.restore]
  else
    (match options.font with
     | some f => if f != "" then [CanvasOp.setFont f] else []
     | none => [])
    ++ (match options.color with
        | some c => if c != "" then [CanvasOp.setFillStyle c] else []
        | none => [])
    ++ [CanvasOp.fillText text x y]

/-- The axis tick for loop of drawAxes (line 193 and line 229): starting
at the loop variable x, while x is at most maxV, record x and add step.
The fuel argument bounds the number of iterations the embedding may
unfold; none means the loop condition still held when the fuel ran out,
which for every fuel models a loop that never terminates.  The source
has no guard against a non-positive step. -/
def loopTicks (maxV step : ℚ) : ℕ → ℚ → Option (List ℚ)
  | 0, x => if x ≤ maxV then none else some []
  | n + 1, x =>
    if x ≤ maxV then (loopTicks maxV step n (x + step)).map (fun l => x :: l)
    else some []

/-- Body of the x tick loop of drawAxes (lines 194 to 209): pixel
position from the coordinate transform, label from the decimal switch,
one drawText call. -/
def xTickBody (g : LineGraph) (xMin xMax pl pr pb fontSize xLabelOffset : ℚ)
    (showDec : Bool) (dp : ℕ) (fontColor fontName : String) (x : ℚ) :
    List (CanvasOp ℚ) :=
  let xPos := pl + ((x - xMin) / (xMax - xMin)) * (g.width - pl - pr)
  let label := if showDec then toFixed x dp else toString (jsRound x)
  drawText label xPos (g.height - pb + fontSize + xLabelOffset)
    { color := some fontColor, font := some (ratStr fontSize ++ "px " ++ fontName) }

/-- Body of the y tick loop of drawAxes (lines 230 to 241). -/
def yTickBody (g : LineGraph) (yMin yMax pt pb pl fontSize yLabelOffset : ℚ)
    (showDec : Bool) (dp : ℕ) (fontColor fontName : String) (y : ℚ) :
    List (CanvasOp ℚ) :=
  let yPos := g.height - pb - ((y - yMin) / (yMax - yMin)) * (g.height - pt - pb)
  let label := if showDec then toFixed y dp else toString (jsRound y)
  drawText label (pl - fontSize - yLabelOffset) (yPos + 5)
    { color := some fontColor, font := some (ratStr fontSize ++ "px " ++ fontName) }

/-- The x tick loop of drawAxes (lines 193 to 210): the loop values, each
mapped through the body that issues one drawText call. -/
def drawAxesXTicksOps (g : LineGraph) (xMin xMax xStep pl pr pb fontSize xLabelOffset : ℚ)
    (showDec : Bool) (dp : ℕ) (fontColor fontName : String) (fuel : ℕ) :
    Option (List (CanvasOp ℚ)) :=
  (loopTicks xMax xStep fuel xMin).map (fun vs =>
    (vs.map (xTickBody g xMin xMax pl pr pb fontSize xLabelOffset showDec dp fontColor fontName)).flatten)

/-- The y tick loop of drawAxes (lines 229 to 242). -/
def drawAxesYTicksOps (g : LineGraph) (yMin yMax yStep pt pb pl fontSize yLabelOffset : ℚ)
    (showDec : Bool) (dp : ℕ) (fontColor fontName : String) (fuel : ℕ) :
    Option (List (CanvasOp ℚ)) :=
  (loopTicks yMax yStep fuel yMin).map (fun vs =>
    (vs.map (yTickBody g yMin yMax pt pb pl fontSize yLabelOffset showDec dp fontColor fontName)).flatten)

/-- LineGraph.drawAxes (lines 125 to 243): defaults resolved as in the
source destructuring, then the x axis line, the optional x title, the x
ticks, the y axis line, the optional y title (rotated by -90 degrees)
and the y ticks.  The result is none when either tick loop exhausts the
fuel, that is when the source loop would not have terminated within
fuel iterations. -/
def drawAxes (g : LineGraph) (options : AxisOptions) (fuel : ℕ) :
    Option (List (CanvasOp ℚ)) :=
  let fontSize := options.fontSize.getD 12
  let fontColor := options.fontColor.getD "black"
  let font := options.font.getD "Arial"
  let padding := options.padding.getD ⟨some 50, some 50, some 50, some 50⟩
  let xs := options.xScale.getD ⟨0, 10, 1, some 0, some false, some 10⟩
  let ys := options.yScale.getD ⟨0, 10, 1, some 0, some false, some 10⟩
  let xAxisStyle := options.xAxisStyle.getD { color := some "black", lineWidth := some 1 }
  let yAxisStyle := options.yAxisStyle.getD { color := some "black", lineWidth := some 1 }
  let pt := padding.top.getD 50
  let pb := padding.bottom.getD 50
  let pl := padding.left.getD 50
  let pr := padding.right.getD 50
  let xDp := xs.decimalPlaces.getD 0
  let xSd := xs.showDecimals.getD false
  let xLo := xs.labelOffset.getD 10
  let yDp := ys.decimalPlaces.getD 0
  let ySd := ys.showDecimals.getD false
  let yLo := ys.labelOffset.getD 20
  let xAxis := drawLine pl (g.height - pb) (g.width - pr) (g.height - pb) xAxisStyle
  let xLabelOps :=
    match options.xLabel with
    | some s =>
      if s != "" then
        drawText s (g.width / 2) (g.height - pb / 2)
          { color := some fontColor, font := some (ratStr (fontSize + 4) ++ "px " ++ font) }
      else []
    | none => []
  match drawAxesXTicksOps g xs.min xs.max xs.step pl pr pb fontSize xLo xSd xDp fontColor font fuel with
  | none => none
  | some xTicks =>
    let yAxis := drawLine pl pt pl (g.height - pb) yAxisStyle
    let yLabelOps :=
      match options.yLabel with
      | some s =>
        if s != "" then
          drawText s (pl / 2) (g.height / 2)
            { color := some fontColor,
              font := some (ratStr (fontSize + 4) ++ "px " ++ font),
              angle := some (-90) }
        else []
      | none => []
    match drawAxesYTicksOps g ys.min ys.max ys.step pt pb pl fontSize yLo ySd yDp fontColor font fuel with
    | none => none
    | some yTicks =>
      some (xAxis ++ xLabelOps ++ xTicks ++ yAxis ++ yLabelOps ++ yTicks)

/-- The scale fallback of the overlay methods: the source reads min and
max from xScale-or-else-min-0-max-1; the fallback object has no step
field and step is never read on this path, 1 stands in for it. -/
def scaleOr (s : Option ScaleOpts) : ScaleOpts :=
  s.getD ⟨0, 1, 1, none, none, none⟩

/-- The padding fallback shared by the overlay methods: the default
object has all four margins at 50, and each destructured field falls
back to 50 again. -/
def padOr (p : Option Padding) : Padding :=
  p.getD ⟨some 50, some 50, some 50, some 50⟩

/-- The x pixel transform of the curve renderer methods: left padding
plus the time offset times the x scale factor, exactly the expression
the source computes per point in connectDataPoints (line 335) and
fillAreaUnderCurve (lines 381, 386 and 395). -/
def curveXPix (g : LineGraph) (axisOptions : AxisOptions) (t : ℚ) : ℚ :=
  let xs := scaleOr axisOptions.xScale
  let padding := padOr axisOptions.padding
  let pl := padding.left.getD 50
  let pr := padding.right.getD 50
  pl + (t - xs.min) * ((g.width - pl - pr) / (xs.max - xs.min))

/-- The y pixel transform of the curve renderer methods, vertically
flipped (lines 336 to 339 and 387 to 390). -/
def curveYPix (g : LineGraph) (axisOptions : AxisOptions) (e : ℚ) : ℚ :=
  let ys := scaleOr axisOptions.yScale
  let padding := padOr axisOptions.padding
  let pt := padding.top.getD 50
  let pb := padding.bottom.getD 50
  g.height - pb - (e - ys.min) * ((g.height - pt - pb) / (ys.max - ys.min))

/-- The pixel y of the x axis line, height minus the bottom padding. -/
def baselineY (g : LineGraph) (axisOptions : AxisOptions) : ℚ :=
  g.height - (padOr axisOptions.padding).bottom.getD 50

/-- Recognizer for painted text calls, used to count tick labels. -/
def isFillText : CanvasOp ℚ → Bool
  | CanvasOp.fillText _ _ _ => true
  | _ => false

/-- LineGraph.connectDataPoints (lines 309 to 351): one path through all
transformed points with moveTo on index 0 and lineTo afterwards. -/
def connectDataPoints (g : LineGraph) (data : List DataPoint)
    (axisOptions : AxisOptions) (options : DrawOptions) : List (CanvasOp ℚ) :=
  [CanvasOp.beginPath]
    ++ idxMap (fun i p =>
         let x := curveXPix g axisOptions p.time
         let y := curveYPix g axisOptions p.elevation
         if i == 0 then CanvasOp.moveTo x y else CanvasOp.lineTo x y) 0 data
    ++ (match options.color with
        | some c => if c != "" then [CanvasOp.setStrokeStyle c] else []
        | none => [])
    ++ (match options.lineWidth with
        | some w => if w != 0 then [CanvasOp.setLineWidth w] else []
        | none => [])
    ++ (match options.lineDash with
        | some d => [CanvasOp.setLineDash d]
        | none => [])
    ++ [CanvasOp.stroke]

/-- LineGraph.fillAreaUnderCurve (lines 353 to 401): empty data is a
no-op; otherwise a closed path from the baseline under the first point,
through every transformed point, back to the baseline under the last
point, then filled. -/
def fillAreaUnderCurve (g : LineGraph) (data : List DataPoint)
    (axisOptions : AxisOptions) (fillColor : String) : List (CanvasOp ℚ) :=
  if data.length == 0 then []
  else
    [CanvasOp.beginPath,
     CanvasOp.moveTo (curveXPix g axisOptions (data.getD 0 ⟨0, 0⟩).time) (baselineY g axisOptions)]
      ++ data.map (fun p =>
           CanvasOp.lineTo (curveXPix g axisOptions p.time) (curveYPix g axisOptions p.elevation))
      ++ [CanvasOp.lineTo (curveXPix g axisOptions (data.getD (data.length - 1) ⟨0, 0⟩).time)
            (baselineY g axisOptions),
          CanvasOp.closePath, CanvasOp.setFillStyle fillColor, CanvasOp.fill]

/-- The scan of drawVerticalLineToTrajectoryWithLimits (lines 433 to
449): walk the reference curve from index 1 carrying the previous
point; at the first right endpoint whose time is at least the marker
time, interpolate linearly and stop.  The pixel transform the source
applies to the found value before breaking is applied by the caller
markerVerticalOps, which preserves the semantics because exactly one
segment is ever selected. -/
def interpLoop (mt : ℚ) : DataPoint → List DataPoint → Option ℚ
  | _, [] => none
  | p1, p2 :: rest =>
    if mt ≤ p2.time then
      let t := (mt - p1.time) / (p2.time - p1.time)
      some (p1.elevation + t * (p2.elevation - p1.elevation))
    else interpLoop mt p2 rest

/-- Entry point of the scan: the loop starts at index 1, so the head of
the curve is the initial previous point; an empty curve finds nothing. -/
def interpValue (mt : ℚ) : List DataPoint → Option ℚ
  | [] => none
  | p :: rest => interpLoop mt p rest

/-- Per-marker work of drawVerticalLineToTrajectoryWithLimits (lines 424
to 455): transform the marker time to x; when the scan finds a covering
segment, transform the interpolated elevation and draw the vertical
segment from the baseline, otherwise draw nothing. -/
def markerVerticalOps (g : LineGraph) (axisOptions : AxisOptions)
    (drawOptions : DrawOptions) (marker : DataPoint) (lineLimit : List DataPoint) :
    List (CanvasOp ℚ) :=
  let xs := scaleOr axisOptions.xScale
  let ys := scaleOr axisOptions.yScale
  let padding := padOr axisOptions.padding
  let pt := padding.top.getD 50
  let pb := padding.bottom.getD 50
  let pl := padding.left.getD 50
  let pr := padding.right.getD 50
  let yBase := g.height - pb
  let x := pl + ((marker.time - xs.min) / (xs.max - xs.min)) * (g.width - pl - pr)
  match interpValue marker.time lineLimit with
  | none => []
  | some v =>
    let yLimit := yBase - ((v - ys.min) / (ys.max - ys.min)) * (g.height - pt - pb)
    drawLine x yBase x yLimit drawOptions

/-- LineGraph.drawVerticalLineToTrajectoryWithLimits (lines 403 to 456):
the forEach over the marker points. -/
def drawVerticalLineToTrajectoryWithLimits (g : LineGraph)
    (markersPoints lineLimit : List DataPoint) (axisOptions : AxisOptions)
    (drawOptions : DrawOptions) : List (CanvasOp ℚ) :=
  (markersPoints.map (fun m => markerVerticalOps g axisOptions drawOptions m lineLimit)).flatten

/-- The selector x position map of drawSelectors and of
drawSelectorsAndIndicators (lines 483 to 488 and 609 to 615). -/
def selectorXPos (g : LineGraph) (axisOptions : AxisOptions) (t : ℚ) : ℚ :=
  let xs := scaleOr axisOptions.xScale
  let padding := padOr axisOptions.padding
  let pl := padding.left.getD 50
  let pr := padding.right.getD 50
  pl + ((t - xs.min) / (xs.max - xs.min)) * (g.width - pl - pr)

/-- The selector glyph pass shared by drawSelectors and
drawSelectorsAndIndicators (lines 490 to 507 and 617 to 634): for each
position a vertical bar below the baseline plus a horizontal stub, the
first stub facing right and the others facing left. -/
def selectorBarOps (g : LineGraph) (drawOptions : DrawOptions) (padTop pb : ℚ)
    (xPositions : List ℚ) : List (CanvasOp ℚ) :=
  (idxMap (fun index x =>
      let verticalBarYStart := g.height - pb + padTop
      let verticalBarYEnd := g.height - pb + 20 + padTop
      let horizontalBarY := verticalBarYStart + 20 / 2
      drawLine x verticalBarYStart x verticalBarYEnd drawOptions
        ++ drawLine x horizontalBarY (x + (if index == 0 then 1 else -1) * 10) horizontalBarY
             drawOptions) 0 xPositions).flatten

/-- LineGraph.drawSelectors (lines 458 to 546).  The measure argument
stands for ctx.measureText.  The source destructures the first two
entries of xPositions; this rational embedding reads them with a
default of 0, and drawSelectorsJS below re-embeds the method at IEEE
fidelity where a missing entry behaves as NaN.  The console.log calls
of the source have no drawing effect and are not modelled. -/
def drawSelectors (g : LineGraph) (measure : String → ℚ)
    (initialPoints : List DataPoint) (axisOptions : AxisOptions)
    (drawOptions : DrawOptions) (padTop : ℚ) (text : String) : List (CanvasOp ℚ) :=
  let padding := padOr axisOptions.padding
  let pb := padding.bottom.getD 50
  let pl := padding.left.getD 50
  let pr := padding.right.getD 50
  let barWidth : ℚ := 10
  let verticalBarWidth : ℚ := 2
  let xPositions := initialPoints.map (fun p => selectorXPos g axisOptions p.time)
  let barOps := selectorBarOps g drawOptions padTop pb xPositions
  let textOps :=
    if text != "" then
      let x1 := xPositions.getD 0 0
      let x2 := xPositions.getD 1 0
      let textWidth := measure text
      let spaceBetweenSelectors := |x2 - x1| - (barWidth + verticalBarWidth + 5) * 2
      let textY := g.height - pb + padTop + 20 / 2 + 5
      let textX :=
        if spaceBetweenSelectors > textWidth then (x1 + x2) / 2 - textWidth / 2
        else if g.width - x2 - pr - verticalBarWidth ≥ textWidth then
          x2 + verticalBarWidth + 5
        else if x1 - pl - verticalBarWidth ≥ textWidth then
          x1 - textWidth - verticalBarWidth - 5
        else (x1 + x2) / 2 - textWidth / 2
      [CanvasOp.setFillStyle (strOr drawOptions.color "black"),
       CanvasOp.setFont (strOr drawOptions.font "12px Arial"),
       CanvasOp.fillText text textX textY]
    else []
  barOps ++ textOps

/-- LineGraph.displayMaxValues (lines 548 to 577): sets fill style, font
and textAlign on the context, then paints the two max labels; nothing
restores textAlign afterwards. -/
def displayMaxValues (g : LineGraph) (axisOptions : AxisOptions)
    (drawOptions : DrawOptions) : List (CanvasOp ℚ) :=
  let xs := scaleOr axisOptions.xScale
  let ys := scaleOr axisOptions.yScale
  let padding := padOr axisOptions.padding
  let pb := padding.bottom.getD 50
  let pl := padding.left.getD 50
  let textXPosition := pl - 10
  let textYPosition := g.height - pb + 20
  [CanvasOp.setFillStyle (strOr drawOptions.color "black"),
   CanvasOp.setFont (strOr drawOptions.font "12px Arial"),
   CanvasOp.setTextAlign "right",
   CanvasOp.fillText ("-" ++ ratStr ys.max ++ " m") textXPosition (textYPosition - 20),
   CanvasOp.fillText ("-" ++ ratStr xs.max ++ " s") textXPosition textYPosition]

/-- LineGraph.drawSelectorsAndIndicators (lines 579 to 769).  The bar
pass is shared with drawSelectors; the five label slots are placed in
the order of the source, the in-place update of leftTextX inside the
third center branch is modelled by rebinding, and the final overlap
pass nudges the center and right labels exactly as the source does. -/
def drawSelectorsAndIndicators (g : LineGraph) (measure : String → ℚ)
    (initialPoints : List DataPoint) (axisOptions : AxisOptions)
    (drawOptions : DrawOptions) (padTop : ℚ)
    (centerText leftText rightText leftText2 rightText2 : String) :
    List (CanvasOp ℚ) :=
  let padding := padOr axisOptions.padding
  let pb := padding.bottom.getD 50
  let pl := padding.left.getD 50
  let pr := padding.right.getD 50
  let barWidth : ℚ := 10
  let verticalBarWidth : ℚ := 2
  let textPadding : ℚ := 5
  let textHeight : ℚ := 12
  let xPositions := initialPoints.map (fun p => selectorXPos g axisOptions p.time)
  let barOps := selectorBarOps g drawOptions padTop pb xPositions
  let textOps :=
    if centerText != "" || leftText != "" || rightText != "" || leftText2 != "" || rightText2 != "" then
      let x1 := xPositions.getD 0 0
      let x2 := xPositions.getD 1 0
      let centerTextWidth := if centerText != "" then measure centerText else 0
      let leftTextWidth := if leftText != "" then measure leftText else 0
      let rightTextWidth := if rightText != "" then measure rightText else 0
      let leftText2Width := if leftText2 != "" then measure leftText2 else 0
      let rightText2Width := if rightText2 != "" then measure rightText2 else 0
      let horizontalBarTotalWidth := barWidth + verticalBarWidth + textPadding
      let centerTextY := g.height - pb + padTop + 20 / 2 + 5
      let leftTextY := centerTextY
      let rightTextY := centerTextY
      let leftText2Y := centerTextY - textHeight - textPadding
      let rightText2Y := centerTextY - textHeight - textPadding
      let spaceBetweenSelectors := x2 - x1 - horizontalBarTotalWidth * 2
      let spaceLeftOfFirstSelector := x1 - pl - horizontalBarTotalWidth
      let spaceRightOfSecondSelector := g.width - x2 - pr - horizontalBarTotalWidth
      let leftTextX :=
        if leftText != "" then
          if spaceLeftOfFirstSelector ≥ leftTextWidth then
            x1 - leftTextWidth - horizontalBarTotalWidth
          else if spaceRightOfSecondSelector ≥ leftTextWidth then
            x2 + horizontalBarTotalWidth
          else x1 + horizontalBarTotalWidth + 5
        else 0
      let leftText2X :=
        if leftText2 != "" then
          if spaceLeftOfFirstSelector ≥ leftText2Width then
            x1 - leftText2Width - horizontalBarTotalWidth
          else if spaceRightOfSecondSelector ≥ leftText2Width then
            x2 + horizontalBarTotalWidth
          else x1 + horizontalBarTotalWidth + 5
        else 0
      let centerPair :=
        if centerText != "" then
          if spaceBetweenSelectors ≥ centerTextWidth then
            ((x1 + x2) / 2 - centerTextWidth / 2, leftTextX)
          else if spaceRightOfSecondSelector ≥ centerTextWidth then
            (x2 + horizontalBarTotalWidth, leftTextX)
          else if spaceLeftOfFirstSelector ≥ centerTextWidth then
            (x1 - centerTextWidth - horizontalBarTotalWidth - textPadding - 5,
             leftTextX - (centerTextWidth + leftTextWidth + textPadding))
          else
            ((if leftText != "" then leftTextX + leftTextWidth + textPadding + 5
              else x1 - centerTextWidth - textPadding), leftTextX)
        else (0, leftTextX)
      let centerTextX := centerPair.1
      let leftTextX := centerPair.2
      let rightTextX :=
        if rightText != "" then
          if spaceRightOfSecondSelector ≥ rightTextWidth then
            x2 + horizontalBarTotalWidth
          else if spaceLeftOfFirstSelector ≥ rightTextWidth then
            x1 - rightTextWidth - horizontalBarTotalWidth
          else x2 - rightTextWidth - horizontalBarTotalWidth - 5
        else 0
      let rightText2X :=
        if rightText2 != "" then
          if spaceRightOfSecondSelector ≥ rightText2Width then
            rightTextX + horizontalBarTotalWidth + rightTextWidth + textPadding + 5
          else if spaceLeftOfFirstSelector ≥ rightText2Width then
            x1 - rightText2Width - horizontalBarTotalWidth
          else x2 - rightText2Width - horizontalBarTotalWidth - 5
        else 0
      let centerTextX :=
        if centerText != "" && leftText != "" &&
            decide (leftTextX + leftTextWidth + textPadding > centerTextX) then
          leftTextX + leftTextWidth + textPadding + 5
        else centerTextX
      let rightTextX :=
        if centerText != "" && rightText != "" &&
            decide (centerTextX + centerTextWidth + textPadding > rightTextX) then
          centerTextX + centerTextWidth + textPadding + 10
        else rightTextX
      [CanvasOp.setFillStyle (strOr drawOptions.color "black"),
       CanvasOp.setFont (strOr drawOptions.font "12px Arial")]
        ++ (if centerText != "" then [CanvasOp.fillText centerText centerTextX centerTextY] else [])
        ++ (if leftText != "" then [CanvasOp.fillText leftText leftTextX leftTextY] else [])
        ++ (if rightText != "" then [CanvasOp.fillText rightText rightTextX rightTextY] else [])
        ++ (if leftText2 != "" then [CanvasOp.fillText leftText2 leftText2X leftText2Y] else [])
        ++ (if rightText2 != "" then [CanvasOp.fillText rightText2 rightText2X rightText2Y] else [])
    else []
  barOps ++ textOps

/-- One transform applied to the context: the source uses only
ctx.translate and ctx.rotate; the rotation argument is recorded in
degrees as in CanvasOp. -/
inductive Xform where
  | translate (x y : ℚ)
  | rotateDeg (deg : ℚ)
deriving DecidableEq

/-- Observable fields of the 2D context that the engine ever writes. -/
structure CtxCore where
  strokeStyle : String
  fillStyle : String
  lineWidth : ℚ
  lineDash : List ℚ
  font : String
  textAlign : String
  transform : List Xform
deriving DecidableEq

/-- Full context state: the current fields plus the stack that
ctx.save pushes and ctx.restore pops; restore on an empty stack is a
no-op, as on the HTML canvas. -/
structure Ctx where
  core : CtxCore
  saved : List CtxCore
deriving DecidableEq

/-- State effect of one context call; painting calls leave the state
unchanged. -/
def applyOp (c : Ctx) : CanvasOp ℚ → Ctx
  | CanvasOp.setStrokeStyle s => ⟨{ c.core with strokeStyle := s }, c.saved⟩
  | CanvasOp.setFillStyle s => ⟨{ c.core with fillStyle := s }, c.saved⟩
  | CanvasOp.setLineWidth w => ⟨{ c.core with lineWidth := w }, c.saved⟩
  | CanvasOp.setLineDash d => ⟨{ c.core with lineDash := d }, c.saved⟩
  | CanvasOp.setFont f => ⟨{ c.core with font := f }, c.saved⟩
  | CanvasOp.setTextAlign a => ⟨{ c.core with textAlign := a }, c.saved⟩
  | CanvasOp.translate x y => ⟨{ c.core with transform := c.core.transform ++ [Xform.translate x y] }, c.saved⟩
  | CanvasOp.rotateDeg d => ⟨{ c.core with transform := c.core.transform ++ [Xform.rotateDeg d] }, c.saved⟩
  | CanvasOp.save => ⟨c.core, c.core :: c.saved⟩
  | CanvasOp.restore =>
    match c.saved with
    | [] => c
    | t :: r => ⟨t, r⟩
  | _ => c

/-- State after a whole sequence of context calls. -/
def applyOps (c : Ctx) (ops : List (CanvasOp ℚ)) : Ctx := ops.foldl applyOp c

/-- IEEE style value model for the two code paths where the source
divides by zero or reads a missing array element: a finite rational, a
signed infinity, or NaN.  Negative zero is not modelled; no embedded
path distinguishes it. -/
inductive JSNum where
  | fin (q : ℚ)
  | posInf
  | negInf
  | nan
deriving DecidableEq

namespace JSNum

/-- IEEE addition. -/
def add : JSNum → JSNum → JSNum
  | fin a, fin b => fin (a + b)
  | fin _, posInf => posInf
  | fin _, negInf => negInf
  | posInf, fin _ => posInf
  | negInf, fin _ => negInf
  | posInf, posInf => posInf
  | negInf, negInf => negInf
  | posInf, negInf => nan
  | negInf, posInf => nan
  | _, _ => nan

/-- IEEE negation. -/
def neg : JSNum → JSNum
  | fin a => fin (-a)
  | posInf => negInf
  | negInf => posInf
  | nan => nan

/-- IEEE subtraction. -/
def sub (a b : JSNum) : JSNum := add a (neg b)

/-- IEEE multiplication: zero times an infinity is NaN. -/
def mul : JSNum → JSNum → JSNum
  | fin a, fin b => fin (a * b)
  | fin a, posInf => if a = 0 then nan else if 0 < a then posInf else negInf
  | fin a, negInf => if a = 0 then nan else if 0 < a then negInf else posInf
  | posInf, fin b => if b = 0 then nan else if 0 < b then posInf else negInf
  | negInf, fin b => if b = 0 then nan else if 0 < b then negInf else posInf
  | posInf, posInf => posInf
  | negInf, negInf => posInf
  | posInf, negInf => negInf
  | negInf, posInf => negInf
  | _, _ => nan

/-- IEEE division: a nonzero finite number divided by zero is a signed
infinity, zero by zero is NaN, as in JS where 1/0 is Infinity. -/
def div : JSNum → JSNum → JSNum
  | fin a, fin b =>
    if b = 0 then (if a = 0 then nan else if 0 < a then posInf else negInf)
    else fin (a / b)
  | fin _, posInf => fin 0
  | fin _, negInf => fin 0
  | posInf, fin b => if 0 ≤ b then posInf else negInf
  | negInf, fin b => if 0 ≤ b then negInf else posInf
  | _, _ => nan

/-- Math.abs. -/
def abs : JSNum → JSNum
  | fin a => fin |a|
  | posInf => posInf
  | negInf => posInf
  | nan => nan

/-- IEEE comparison: every comparison with NaN is false. -/
def gtb : JSNum → JSNum → Bool
  | fin a, fin b => a > b
  | fin _, negInf => true
  | posInf, fin _ => true
  | posInf, negInf => true
  | _, _ => false

/-- IEEE comparison at least, false on NaN. -/
def geb : JSNum → JSNum → Bool
  | fin a, fin b => a ≥ b
  | fin _, negInf => true
  | posInf, fin _ => true
  | posInf, posInf => true
  | posInf, negInf => true
  | negInf, negInf => true
  | _, _ => false

end JSNum

/-- LineGraph.connectDataPoints re-embedded over the IEEE value model
(lines 309 to 351, same structure as connectDataPoints above): this is
the form in which the degenerate scale max equal to min can be
evaluated, since there the source divides by zero. -/
def connectDataPointsJS (g : LineGraph) (data : List DataPoint)
    (axisOptions : AxisOptions) (options : DrawOptions) : List (CanvasOp JSNum) :=
  let xs := scaleOr axisOptions.xScale
  let ys := scaleOr axisOptions.yScale
  let padding := padOr axisOptions.padding
  let pt := padding.top.getD 50
  let pb := padding.bottom.getD 50
  let pl := padding.left.getD 50
  let pr := padding.right.getD 50
  let xsf := JSNum.div (JSNum.fin (g.width - pl - pr)) (JSNum.fin (xs.max - xs.min))
  let ysf := JSNum.div (JSNum.fin (g.height - pt - pb)) (JSNum.fin (ys.max - ys.min))
  [CanvasOp.beginPath]
    ++ idxMap (fun i p =>
         let x := JSNum.add (JSNum.fin pl) (JSNum.mul (JSNum.fin (p.time - xs.min)) xsf)
         let y := JSNum.sub (JSNum.fin (g.height - pb)) (JSNum.mul (JSNum.fin (p.elevation - ys.min)) ysf)
         if i == 0 then CanvasOp.moveTo x y else CanvasOp.lineTo x y) 0 data
    ++ (match options.color with
        | some c => if c != "" then [CanvasOp.setStrokeStyle c] else []
        | none => [])
    ++ (match options.lineWidth with
        | some w => if w != 0 then [CanvasOp.setLineWidth (JSNum.fin w)] else []
        | none => [])
    ++ (match options.lineDash with
        | some d => [CanvasOp.setLineDash (d.map JSNum.fin)]
        | none => [])
    ++ [CanvasOp.stroke]

/-- LineGraph.drawLine over the IEEE value model, used by the selector
bars of drawSelectorsJS. -/
def drawLineJS (x1 y1 x2 y2 : JSNum) (options : DrawOptions) : List (CanvasOp JSNum) :=
  [CanvasOp.beginPath, CanvasOp.moveTo x1 y1, CanvasOp.lineTo x2 y2]
    ++ (match options.color with
        | some c => if c != "" then [CanvasOp.setStrokeStyle c] else []
        | none => [])
    ++ (match options.lineWidth with
        | some w => if w != 0 then [CanvasOp.setLineWidth (JSNum.fin w)] else []
        | none => [])
    ++ (match options.lineDash with
        | some d => [CanvasOp.setLineDash (d.map JSNum.fin)]
        | none => [])
    ++ [CanvasOp.stroke]

/-- LineGraph.drawSelectors re-embedded over the IEEE value model (lines
458 to 546): the destructuring of the first two entries of xPositions
reads undefined when fewer than two marker points are supplied, and
undefined behaves as NaN in every arithmetic use below, which is how it
is modelled here. -/
def drawSelectorsJS (g : LineGraph) (measure : String → ℚ)
    (initialPoints : List DataPoint) (axisOptions : AxisOptions)
    (drawOptions : DrawOptions) (padTop : ℚ) (text : String) : List (CanvasOp JSNum) :=
  let padding := padOr axisOptions.padding
  let pb := padding.bottom.getD 50
  let pl := padding.left.getD 50
  let pr := padding.right.getD 50
  let barWidth : ℚ := 10
  let verticalBarWidth : ℚ := 2
  let xPositions := initialPoints.map (fun p => JSNum.fin (selectorXPos g axisOptions p.time))
  let barOps :=
    (idxMap (fun index x =>
        let verticalBarYStart := JSNum.fin (g.height - pb + padTop)
        let verticalBarYEnd := JSNum.fin (g.height - pb + 20 + padTop)
        let horizontalBarY := JSNum.fin (g.height - pb + padTop + 20 / 2)
        drawLineJS x verticalBarYStart x verticalBarYEnd drawOptions
          ++ drawLineJS x horizontalBarY
               (JSNum.add x (JSNum.fin ((if index == 0 then 1 else -1) * barWidth)))
               horizontalBarY drawOptions) 0 xPositions).flatten
  let textOps :=
    if text != "" then
      let x1 := xPositions.getD 0 JSNum.nan
      let x2 := xPositions.getD 1 JSNum.nan
      let textWidth := JSNum.fin (measure text)
      let spaceBetweenSelectors :=
        JSNum.sub (JSNum.abs (JSNum.sub x2 x1)) (JSNum.fin ((barWidth + verticalBarWidth + 5) * 2))
      let textY := JSNum.fin (g.height - pb + padTop + 20 / 2 + 5)
      let textX :=
        if JSNum.gtb spaceBetweenSelectors textWidth then
          JSNum.sub (JSNum.div (JSNum.add x1 x2) (JSNum.fin 2)) (JSNum.div textWidth (JSNum.fin 2))
        else if JSNum.geb (JSNum.sub (JSNum.sub (JSNum.sub (JSNum.fin g.width) x2) (JSNum.fin pr)) (JSNum.fin verticalBarWidth)) textWidth then
          JSNum.add x2 (JSNum.fin (verticalBarWidth + 5))
        else if JSNum.geb (JSNum.sub (JSNum.sub x1 (JSNum.fin pl)) (JSNum.fin verticalBarWidth)) textWidth then
          JSNum.sub (JSNum.sub x1 textWidth) (JSNum.fin (verticalBarWidth + 5))
        else
          JSNum.sub (JSNum.div (JSNum.add x1 x2) (JSNum.fin 2)) (JSNum.div textWidth (JSNum.fin 2))
      [CanvasOp.setFillStyle (strOr drawOptions.color "black"),
       CanvasOp.setFont (strOr drawOptions.font "12px Arial"),
       CanvasOp.fillText text textX textY]
    else []
  barOps ++ textOps

/-! Helper lemmas about the embedded operations. -/

lemma interpLoop_first (mt : ℚ) :
    ∀ (rest : List DataPoint) (p1 : DataPoint) (i : ℕ), i < rest.length →
      mt ≤ (rest.getD i ⟨0, 0⟩).time →
      (∀ j, j < i → (rest.getD j ⟨0, 0⟩).time < mt) →
      interpLoop mt p1 rest =
        some ((if i = 0 then p1 else rest.getD (i - 1) ⟨0, 0⟩).elevation
          + (mt - (if i = 0 then p1 else rest.getD (i - 1) ⟨0, 0⟩).time)
            / ((rest.getD i ⟨0, 0⟩).time - (if i = 0 then p1 else rest.getD (i - 1) ⟨0, 0⟩).time)
            * ((rest.getD i ⟨0, 0⟩).elevation
              - (if i = 0 then p1 else rest.getD (i - 1) ⟨0, 0⟩).elevation)) := by
  intro rest
  induction rest with
  | nil => intro p1 i hi; simp at hi
  | cons p2 rest ih =>
    intro p1 i hi hcov hbefore
    cases i with
    | zero =>
      simp only [List.getD_cons_zero] at hcov ⊢
      simp [interpLoop, hcov]
    | succ k =>
      have h0 : p2.time < mt := by simpa using hbefore 0 (Nat.succ_pos k)
      have hk : k < rest.length := by simpa using hi
      have hcov' : mt ≤ (rest.getD k ⟨0, 0⟩).time := by simpa using hcov
      have hbefore' : ∀ j, j < k → (rest.getD j ⟨0, 0⟩).time < mt := by
        intro j hj
        simpa using hbefore (j + 1) (by omega)
      have hrec := ih p2 k hk hcov' hbefore'
      have hnot : ¬ mt ≤ p2.time := not_le.mpr h0
      rw [interpLoop, if_neg hnot, hrec]
      cases k with
      | zero => simp
      | succ m => simp

lemma interpLoop_none_of_all_lt (mt : ℚ) :
    ∀ (rest : List DataPoint) (p1 : DataPoint),
      (∀ q ∈ rest, q.time < mt) → interpLoop mt p1 rest = none := by
  intro rest
  induction rest with
  | nil => intro p1 _; rfl
  | cons p2 r ih =>
    intro p1 h
    have h2 : ¬ mt ≤ p2.time := not_le.mpr (h p2 (by simp))
    rw [interpLoop, if_neg h2]
    exact ih p2 (fun q hq => h q (by simp [hq]))

lemma interpLoop_isSome_of_exists (mt : ℚ) :
    ∀ (rest : List DataPoint) (p1 : DataPoint),
      (∃ q ∈ rest, mt ≤ q.time) → (interpLoop mt p1 rest).isSome := by
  intro rest
  induction rest with
  | nil => intro p1 h; simp at h
  | cons p2 r ih =>
    intro p1 h
    by_cases h2 : mt ≤ p2.time
    · rw [interpLoop, if_pos h2]; rfl
    · rw [interpLoop, if_neg h2]
      apply ih p2
      obtain ⟨q, hq, hle⟩ := h
      rcases List.mem_cons.mp hq with rfl | hq'
      · exact absurd hle h2
      · exact ⟨q, hq', hle⟩

/-! Settled claims. -/

/-- C2: for every marker and reference curve, the scan of
drawVerticalLineToTrajectoryWithLimits selects the first segment from
index i-1 to i whose right endpoint time is at least the marker time
and computes the height e0 + (mt - t0) / (t1 - t0) * (e1 - e0) there;
the witness instantiates the curve (0,0),(10,100) with a marker at
time 5 and obtains exactly 50. -/
theorem interp_selects_first_covering_segment (mt : ℚ) (curve : List DataPoint)
    (i : ℕ) (h1 : 1 ≤ i) (hi : i < curve.length)
    (hcov : mt ≤ (curve.getD i ⟨0, 0⟩).time)
    (hfirst : ∀ j, 1 ≤ j → j < i → (curve.getD j ⟨0, 0⟩).time < mt) :
    interpValue mt curve =
      some ((curve.getD (i - 1) ⟨0, 0⟩).elevation
        + (mt - (curve.getD (i - 1) ⟨0, 0⟩).time)
          / ((curve.getD i ⟨0, 0⟩).time - (curve.getD (i - 1) ⟨0, 0⟩).time)
          * ((curve.getD i ⟨0, 0⟩).elevation - (curve.getD (i - 1) ⟨0, 0⟩).elevation)) := by
  cases curve with
  | nil => simp at hi
  | cons p rest =>
    obtain ⟨k, rfl⟩ : ∃ k, i = k + 1 := ⟨i - 1, by omega⟩
    have hk : k < rest.length := by simpa using hi
    have hcov' : mt ≤ (rest.getD k ⟨0, 0⟩).time := by simpa using hcov
    have hfirst' : ∀ j, j < k → (rest.getD j ⟨0, 0⟩).time < mt := by
      intro j hj
      simpa using hfirst (j + 1) (by omega) (by omega)
    have h := interpLoop_first mt rest p k hk hcov' hfirst'
    show interpLoop mt p rest = _
    rw [h]
    cases k with
    | zero => simp
    | succ m => simp

/-- Witness for C2 at the reference curve (0,0),(10,100) and a marker at
time 5: the interpolated elevation is exactly 50. -/
theorem interp_selects_first_covering_segment_witness :
    interpValue 5 [⟨0, 0⟩, ⟨10, 100⟩] = some 50 := by
  have h := interp_selects_first_covering_segment 5 [⟨0, 0⟩, ⟨10, 100⟩] 1
    le_rfl (by norm_num) (by norm_num) (by intro j hj1 hj2; omega)
  rw [h]
  norm_num

/-- C10: a marker at or before the start of the reference curve is not
skipped: with at least two points in non-decreasing time order the scan
stops at the first segment, the height is the linear extrapolation with
parameter t at most 0, and a vertical line is drawn; the witness shows
a drawn height outside the elevation range of the segment. -/
theorem drawVertical_extrapolates_before_start (g : LineGraph)
    (axisOptions : AxisOptions) (drawOptions : DrawOptions)
    (marker p0 p1 : DataPoint) (rest : List DataPoint)
    (hle : marker.time ≤ p0.time) (hlt : p0.time < p1.time) :
    interpValue marker.time (p0 :: p1 :: rest) =
      some (p0.elevation + (marker.time - p0.time) / (p1.time - p0.time)
        * (p1.elevation - p0.elevation))
    ∧ (marker.time - p0.time) / (p1.time - p0.time) ≤ 0
    ∧ drawVerticalLineToTrajectoryWithLimits g [marker] (p0 :: p1 :: rest)
        axisOptions drawOptions ≠ [] := by
  have hc : marker.time ≤ p1.time := le_trans hle (le_of_lt hlt)
  have h1 : interpValue marker.time (p0 :: p1 :: rest) =
      some (p0.elevation + (marker.time - p0.time) / (p1.time - p0.time)
        * (p1.elevation - p0.elevation)) := by
    show interpLoop marker.time p0 (p1 :: rest) = _
    rw [interpLoop, if_pos hc]
  refine ⟨h1, ?_, ?_⟩
  · have hnum : marker.time - p0.time ≤ 0 := by linarith
    have hden : 0 ≤ p1.time - p0.time := by linarith
    exact div_nonpos_iff.mpr (Or.inr ⟨hnum, hden⟩)
  · simp [drawVerticalLineToTrajectoryWithLimits, markerVerticalOps, h1, drawLine]

/-- Witness for C10: a marker at time 0 against the curve
(10,0),(20,100) gets the extrapolated height -100, below the segment
elevation range from 0 to 100, and the line is drawn. -/
theorem drawVertical_extrapolates_before_start_witness :
    interpValue 0 [⟨10, 0⟩, ⟨20, 100⟩] = some (-100)
    ∧ ((-100 : ℚ) < 0 ∧ (-100 : ℚ) < 100)
    ∧ drawVerticalLineToTrajectoryWithLimits ⟨800, 600⟩ [⟨0, 0⟩] [⟨10, 0⟩, ⟨20, 100⟩]
        {} {} ≠ [] := by
  have h := drawVertical_extrapolates_before_start ⟨800, 600⟩ {} {}
    ⟨0, 0⟩ ⟨10, 0⟩ ⟨20, 100⟩ [] (by norm_num) (by norm_num)
  refine ⟨?_, by norm_num, h.2.2⟩
  rw [h.1]
  norm_num

/-- C5: a marker whose time is strictly greater than every time in the
reference curve gets no draw call, a silent skip, while a marker
covered by some segment, that is one with a curve point from index 1 on
at or after the marker time, still gets its vertical line. -/
theorem drawVertical_skip_and_cover (g : LineGraph) (axisOptions : AxisOptions)
    (drawOptions : DrawOptions) (marker : DataPoint) (curve : List DataPoint) :
    ((∀ q ∈ curve, q.time < marker.time) →
      drawVerticalLineToTrajectoryWithLimits g [marker] curve axisOptions drawOptions = [])
    ∧ ((∃ q ∈ curve.tail, marker.time ≤ q.time) →
      drawVerticalLineToTrajectoryWithLimits g [marker] curve axisOptions drawOptions ≠ []) := by
  constructor
  · intro h
    have hnone : interpValue marker.time curve = none := by
      cases curve with
      | nil => rfl
      | cons p r => exact interpLoop_none_of_all_lt _ r p (fun q hq => h q (by simp [hq]))
    simp [drawVerticalLineToTrajectoryWithLimits, markerVerticalOps, hnone]
  · intro h
    have hsome : (interpValue marker.time curve).isSome := by
      cases curve with
      | nil => simp at h
      | cons p r => exact interpLoop_isSome_of_exists _ r p (by simpa using h)
    obtain ⟨v, hv⟩ := Option.isSome_iff_exists.mp hsome
    simp [drawVerticalLineToTrajectoryWithLimits, markerVerticalOps, hv, drawLine]

/-- Witness for C5: against the curve (0,0),(10,100), a marker at time
20 yields no draw call and a marker at time 5 yields a drawn line. -/
theorem drawVertical_skip_and_cover_witness :
    drawVerticalLineToTrajectoryWithLimits ⟨800, 600⟩ [⟨20, 0⟩] [⟨0, 0⟩, ⟨10, 100⟩] {} {} = []
    ∧ drawVerticalLineToTrajectoryWithLimits ⟨800, 600⟩ [⟨5, 0⟩] [⟨0, 0⟩, ⟨10, 100⟩] {} {} ≠ [] := by
  constructor
  · apply (drawVertical_skip_and_cover ⟨800, 600⟩ {} {} ⟨20, 0⟩ [⟨0, 0⟩, ⟨10, 100⟩]).1
    intro q hq
    rcases List.mem_cons.mp hq with rfl | hq'
    · norm_num
    · rcases List.mem_cons.mp hq' with rfl | hq''
      · norm_num
      · simp at hq''
  · apply (drawVertical_skip_and_cover ⟨800, 600⟩ {} {} ⟨5, 0⟩ [⟨0, 0⟩, ⟨10, 100⟩]).2
    exact ⟨⟨10, 100⟩, by simp, by norm_num⟩

lemma loopTicks_nonpos (maxV step : ℚ) (hstep : step ≤ 0) :
    ∀ (fuel : ℕ) (x : ℚ), x ≤ maxV → loopTicks maxV step fuel x = none := by
  intro fuel
  induction fuel with
  | zero => intro x hx; simp [loopTicks, hx]
  | succ n ih =>
    intro x hx
    have hx2 : x + step ≤ maxV := by linarith
    simp [loopTicks, hx, ih (x + step) hx2]

/-- C3: the claim requires an explicit guard so that a non-positive
step draws zero ticks, but the source tick loop has no guard at all:
whenever step is non-positive and min is at most max the loop condition
never fails, so the embedded loop returns none for every fuel bound,
which models a loop that never terminates instead of executing zero
iterations. -/
theorem drawAxes_step_nonpos_never_terminates (g : LineGraph)
    (options : AxisOptions) (s : ScaleOpts) (hs : options.xScale = some s)
    (hstep : s.step ≤ 0) (hmm : s.min ≤ s.max) :
    ∀ fuel, drawAxes g options fuel = none := by
  intro fuel
  have h := loopTicks_nonpos s.max s.step hstep fuel s.min hmm
  simp [drawAxes, hs, drawAxesXTicksOps, h]

/-- Witness for C3 at the scale min 0, max 10, step 0: the x tick loop
of drawAxes is still running after one thousand iterations. -/
theorem drawAxes_step_nonpos_never_terminates_witness :
    drawAxes ⟨800, 600⟩ { xScale := some ⟨0, 10, 0, none, none, none⟩ } 1000 = none :=
  drawAxes_step_nonpos_never_terminates ⟨800, 600⟩
    { xScale := some ⟨0, 10, 0, none, none, none⟩ } ⟨0, 10, 0, none, none, none⟩
    rfl (by norm_num) (by norm_num) 1000

lemma loopTicks_stop (maxV step x : ℚ) (h : maxV < x) :
    ∀ fuel, loopTicks maxV step fuel x = some [] := by
  intro fuel
  cases fuel with
  | zero => simp [loopTicks, not_le.mpr h]
  | succ n => simp [loopTicks, not_le.mpr h]

lemma loopTicks_exact (maxV step : ℚ) (hstep : 0 < step) :
    ∀ (n : ℕ) (x : ℚ), x + n * step ≤ maxV → maxV < x + (n + 1) * step →
      ∀ fuel, n < fuel →
        loopTicks maxV step fuel x =
          some ((List.range (n + 1)).map (fun i : ℕ => x + (i : ℚ) * step)) := by
  intro n
  induction n with
  | zero =>
    intro x hlo hhi fuel hf
    obtain ⟨m, rfl⟩ : ∃ m, fuel = m + 1 := ⟨fuel - 1, by omega⟩
    have hx : x ≤ maxV := by push_cast at hlo; linarith
    have hx2 : maxV < x + step := by push_cast at hhi; linarith
    rw [loopTicks, if_pos hx, loopTicks_stop maxV step (x + step) hx2 m]
    rw [show List.range 1 = [0] from rfl]
    simp
  | succ k ih =>
    intro x hlo hhi fuel hf
    obtain ⟨m, rfl⟩ : ∃ m, fuel = m + 1 := ⟨fuel - 1, by omega⟩
    have hstepk : (0 : ℚ) ≤ (k + 1 : ℕ) * step := by positivity
    have hx : x ≤ maxV := by
      push_cast at hlo hstepk ⊢
      linarith
    have hlo2 : (x + step) + k * step ≤ maxV := by push_cast at hlo ⊢; linarith
    have hhi2 : maxV < (x + step) + (k + 1) * step := by push_cast at hhi ⊢; linarith
    have hrec := ih (x + step) hlo2 hhi2 m (by omega)
    have hlist : (List.range (k + 1 + 1)).map (fun i : ℕ => x + (i : ℚ) * step)
        = x :: (List.range (k + 1)).map (fun i : ℕ => (x + step) + (i : ℚ) * step) := by
      rw [List.range_succ_eq_map, List.map_cons, List.map_map]
      refine congrArg₂ List.cons (by norm_num) ?_
      apply List.map_congr_left
      intro a _
      simp only [Function.comp_apply]
      push_cast
      ring
    rw [loopTicks, if_pos hx, hrec]
    exact congrArg (Option.map fun l => x :: l) rfl |>.trans (congrArg some hlist.symm)

lemma drawText_countP_fillText (text : String) (x y : ℚ) (options : DrawOptions) :
    (drawText text x y options).countP isFillText = 1 := by
  rw [drawText]
  split
  · rfl
  · rcases options.font with _ | f <;> rcases options.color with _ | c
    · rfl
    · by_cases hc : c != "" <;> simp [hc, isFillText, List.countP_append, List.countP_cons]
    · by_cases hf : f != "" <;> simp [hf, isFillText, List.countP_append, List.countP_cons]
    · by_cases hf : f != "" <;> by_cases hc : c != "" <;>
        simp [hf, hc, isFillText, List.countP_append, List.countP_cons]

lemma countP_flatten_map_one {β : Type} (body : β → List (CanvasOp ℚ))
    (hbody : ∀ b, (body b).countP isFillText = 1) :
    ∀ l : List β, ((l.map body).flatten).countP isFillText = l.length := by
  intro l
  induction l with
  | nil => rfl
  | cons a l ih =>
    simp [List.countP_append, hbody a, ih]
    omega

/-- C1: for a scale with max above min and positive step, the x tick
loop of drawAxes performs exactly floor of (max - min) / step plus one
iterations, the first at value min and the last at the largest value at
most max reachable by stepping from min, and the emitted operations
paint exactly that many tick labels. -/
theorem drawAxes_xtick_count (g : LineGraph)
    (pl pr pb fontSize xLabelOffset : ℚ) (showDec : Bool) (dp : ℕ)
    (fontColor fontName : String) (xMin xMax xStep : ℚ) (n : ℕ)
    (hmm : xMin < xMax) (hstep : 0 < xStep)
    (hn : (n : ℤ) = ⌊(xMax - xMin) / xStep⌋) :
    ∃ ticks : List ℚ,
      loopTicks xMax xStep (n + 1) xMin = some ticks
      ∧ ticks.length = n + 1
      ∧ ticks.head? = some xMin
      ∧ ticks.getLast? = some (xMin + n * xStep)
      ∧ xMin + n * xStep ≤ xMax
      ∧ (∀ k : ℕ, xMin + k * xStep ≤ xMax → xMin + k * xStep ≤ xMin + n * xStep)
      ∧ drawAxesXTicksOps g xMin xMax xStep pl pr pb fontSize xLabelOffset showDec dp
          fontColor fontName (n + 1)
          = some ((ticks.map (xTickBody g xMin xMax pl pr pb fontSize xLabelOffset
              showDec dp fontColor fontName)).flatten)
      ∧ ((ticks.map (xTickBody g xMin xMax pl pr pb fontSize xLabelOffset showDec dp
          fontColor fontName)).flatten).countP isFillText = n + 1 := by
  have hlo : xMin + n * xStep ≤ xMax := by
    have h1 : ((n : ℤ) : ℚ) ≤ (xMax - xMin) / xStep := by
      rw [hn]; exact Int.floor_le _
    have h2 : (n : ℚ) ≤ (xMax - xMin) / xStep := by exact_mod_cast h1
    have h3 : (n : ℚ) * xStep ≤ xMax - xMin := (le_div_iff₀ hstep).mp h2
    linarith
  have hhi : xMax < xMin + ((n : ℚ) + 1) * xStep := by
    have h1 : (xMax - xMin) / xStep < ((n : ℤ) : ℚ) + 1 := by
      rw [hn]; exact Int.lt_floor_add_one _
    have h2 : (xMax - xMin) / xStep < (n : ℚ) + 1 := by exact_mod_cast h1
    have h3 : xMax - xMin < ((n : ℚ) + 1) * xStep := (div_lt_iff₀ hstep).mp h2
    linarith
  have hloop := loopTicks_exact xMax xStep hstep n xMin hlo hhi (n + 1) (Nat.lt_succ_self n)
  refine ⟨(List.range (n + 1)).map (fun i : ℕ => xMin + (i : ℚ) * xStep), hloop, by simp, ?_, ?_, hlo, ?_, ?_, ?_⟩
  · rw [List.range_succ_eq_map]
    simp
  · rw [List.range_succ, List.map_append]
    simp [List.getLast?_concat]
  · intro k hk
    have h2 : (k : ℚ) * xStep ≤ xMax - xMin := by linarith
    have h3 : (k : ℚ) ≤ (xMax - xMin) / xStep := (le_div_iff₀ hstep).mpr h2
    have h4 : (k : ℤ) ≤ ⌊(xMax - xMin) / xStep⌋ := Int.le_floor.mpr (by exact_mod_cast h3)
    have h5 : k ≤ n := by exact_mod_cast h4.trans_eq hn.symm
    have h6 : (k : ℚ) * xStep ≤ (n : ℚ) * xStep := by
      apply mul_le_mul_of_nonneg_right _ hstep.le
      exact_mod_cast h5
    linarith
  · rw [drawAxesXTicksOps, hloop]
    rfl
  · rw [countP_flatten_map_one]
    · simp
    · intro b
      simp [xTickBody, drawText_countP_fillText]

/-- Witness for C1 at the scale min 0, max 10, step 3: floor of 10/3 is
3, so four ticks are drawn, the first at 0 and the last at 9. -/
theorem drawAxes_xtick_count_witness :
    ((3 : ℤ) = ⌊((10 : ℚ) - 0) / 3⌋)
    ∧ ∃ ticks : List ℚ,
        loopTicks 10 3 (3 + 1) 0 = some ticks ∧ ticks.length = 4
        ∧ ticks.head? = some 0 ∧ ticks.getLast? = some 9 := by
  have hfl : (3 : ℤ) = ⌊((10 : ℚ) - 0) / 3⌋ := by norm_num [Int.floor_eq_iff]
  have h := drawAxes_xtick_count ⟨800, 600⟩ 50 50 50 12 10 false 0 "black" "Arial"
    0 10 3 3 (by norm_num) (by norm_num) hfl
  obtain ⟨ticks, h1, h2, h3, h4, -, -, -, -⟩ := h
  refine ⟨hfl, ticks, h1, h2, h3, ?_⟩
  rw [h4]
  norm_num

lemma getD_length_sub_one_eq_getLast :
    ∀ (l : List DataPoint) (h : l ≠ []), l.getD (l.length - 1) ⟨0, 0⟩ = l.getLast h := by
  intro l
  induction l with
  | nil => intro h; exact absurd rfl h
  | cons a l ih =>
    intro h
    cases l with
    | nil => rfl
    | cons b l2 =>
      rw [List.getLast_cons (by simp)]
      have := ih (by simp)
      simpa using this

/-- C6: fillAreaUnderCurve on an empty point sequence is a no-op, and
on a non-empty sequence it builds and fills one closed path that starts
at the baseline under the first point, visits every transformed data
point in input order, and ends at the baseline under the last point. -/
theorem fillArea_empty_noop_and_closed_path (g : LineGraph)
    (axisOptions : AxisOptions) (c : String) :
    fillAreaUnderCurve g [] axisOptions c = []
    ∧ ∀ (data : List DataPoint) (hd : data ≠ []),
        fillAreaUnderCurve g data axisOptions c =
          [CanvasOp.beginPath,
           CanvasOp.moveTo (curveXPix g axisOptions (data.head hd).time) (baselineY g axisOptions)]
          ++ data.map (fun p =>
               CanvasOp.lineTo (curveXPix g axisOptions p.time)
                 (curveYPix g axisOptions p.elevation))
          ++ [CanvasOp.lineTo (curveXPix g axisOptions (data.getLast hd).time)
                (baselineY g axisOptions),
              CanvasOp.closePath, CanvasOp.setFillStyle c, CanvasOp.fill] := by
  refine ⟨rfl, ?_⟩
  intro data hd
  cases data with
  | nil => exact absurd rfl hd
  | cons p rest =>
    have hlast := getD_length_sub_one_eq_getLast (p :: rest) hd
    rw [fillAreaUnderCurve]
    rw [show ((p :: rest).length == 0) = false from rfl]
    rw [hlast]
    rfl

/-- Witness for C6: for the curve (0,10),(10,20) on an 800 by 600
canvas with x scale 0 to 10 and y scale 0 to 20, the path vertices are
the baseline point under x(0), the two transformed data points, and the
baseline point under x(10), then the path is closed and filled. -/
theorem fillArea_empty_noop_and_closed_path_witness :
    fillAreaUnderCurve ⟨800, 600⟩ [⟨0, 10⟩, ⟨10, 20⟩]
      { xScale := some ⟨0, 10, 1, none, none, none⟩,
        yScale := some ⟨0, 20, 1, none, none, none⟩ } "rgba darken" =
      [CanvasOp.beginPath, CanvasOp.moveTo 50 550, CanvasOp.lineTo 50 300,
       CanvasOp.lineTo 750 50, CanvasOp.lineTo 750 550, CanvasOp.closePath,
       CanvasOp.setFillStyle "rgba darken", CanvasOp.fill] := by
  have h := (fillArea_empty_noop_and_closed_path ⟨800, 600⟩
    { xScale := some ⟨0, 10, 1, none, none, none⟩,
      yScale := some ⟨0, 20, 1, none, none, none⟩ } "rgba darken").2
    [⟨0, 10⟩, ⟨10, 20⟩] (by simp)
  rw [h]
  norm_num [curveXPix, curveYPix, baselineY, scaleOr, padOr]

/-- C9 counterexample: displayMaxValues sets the context textAlign
field to right and nothing restores it, so a later call can
observe residual state in a context field other than the sequential
stroke, fill and font settings, contrary to the claim. -/
theorem displayMaxValues_leaves_textAlign_changed :
    (applyOps ⟨⟨"black", "black", 1, [], "10px sans-serif", "start", []⟩, []⟩
        (displayMaxValues ⟨800, 600⟩ {} {})).core.textAlign
      ≠ (⟨⟨"black", "black", 1, [], "10px sans-serif", "start", []⟩, []⟩ : Ctx).core.textAlign := by
  simp [displayMaxValues, applyOps, applyOp, scaleOr, padOr, strOr]

/-- C9 amended: drawText with a truthy rotation angle restores the full
context state, transform included, before returning, so no rotation
leaks into later draws; but the no-other-residue part of the claim
fails: displayMaxValues leaves the context textAlign field set to
right (see the counterexample), which later calls observe. -/
theorem drawText_rotation_scoped_displayMaxValues_textAlign (ctx : Ctx)
    (text : String) (x y : ℚ) (options : DrawOptions) (g : LineGraph)
    (axisOptions : AxisOptions) (drawOptions : DrawOptions)
    (h : truthyN options.angle = true) :
    applyOps ctx (drawText text x y options) = ctx
    ∧ (applyOps ctx (displayMaxValues g axisOptions drawOptions)).core.textAlign = "right" := by
  constructor
  · obtain ⟨core, saved⟩ := ctx
    simp [drawText, h, applyOps, applyOp]
  · simp [displayMaxValues, applyOps, applyOp]

/-- Witness for C9: rotating text through drawText at angle -90 leaves
a concrete context unchanged, and displayMaxValues on that context
leaves textAlign set to right. -/
theorem drawText_rotation_scoped_displayMaxValues_textAlign_witness :
    applyOps ⟨⟨"red", "blue", 2, [4, 2], "10px serif", "start", []⟩, []⟩
        (drawText "Elevation" 25 300 { angle := some (-90) })
      = ⟨⟨"red", "blue", 2, [4, 2], "10px serif", "start", []⟩, []⟩
    ∧ (applyOps ⟨⟨"red", "blue", 2, [4, 2], "10px serif", "start", []⟩, []⟩
        (displayMaxValues ⟨800, 600⟩ {} {})).core.textAlign = "right" := by
  have h := drawText_rotation_scoped_displayMaxValues_textAlign
    ⟨⟨"red", "blue", 2, [4, 2], "10px serif", "start", []⟩, []⟩
    "Elevation" 25 300 { angle := some (-90) } ⟨800, 600⟩ {} {}
    (by simp [truthyN])
  exact h

/-- C4: the claim requires a defined InvalidScale failure on a
degenerate scale, but the source validates nothing: on the scale with
min = max = 5, connectDataPoints divides by zero, the x scale factor
becomes Infinity, the x coordinate of the point at time 5 becomes NaN,
and the path and stroke calls are issued silently with the NaN
coordinate instead of any error. -/
theorem connectDataPoints_degenerate_scale_silent_nan :
    connectDataPointsJS ⟨800, 600⟩ [⟨5, 3⟩]
      { xScale := some ⟨5, 5, 1, none, none, none⟩,
        yScale := some ⟨0, 10, 1, none, none, none⟩ } {} =
      [CanvasOp.beginPath, CanvasOp.moveTo JSNum.nan (JSNum.fin 400), CanvasOp.stroke] := by
  norm_num [connectDataPointsJS, scaleOr, padOr, idxMap, JSNum.div, JSNum.mul, JSNum.add,
    JSNum.sub, JSNum.neg]

/-- C7: the claim requires an InvalidInput failure when the marker
point count differs from two, but drawSelectors validates nothing:
with a single marker point and a label, the destructured second
position is undefined, every placement test on it is false, the label
x coordinate becomes NaN through the fallback placement, and the
selector bars plus the label draw call are issued silently. -/
theorem drawSelectors_single_marker_silent_nan :
    drawSelectorsJS ⟨800, 600⟩ (fun _ => 600) [⟨5, 0⟩]
      { xScale := some ⟨0, 10, 1, none, none, none⟩ } {} 0 "dur" =
      [CanvasOp.beginPath, CanvasOp.moveTo (JSNum.fin 400) (JSNum.fin 550),
       CanvasOp.lineTo (JSNum.fin 400) (JSNum.fin 570), CanvasOp.stroke,
       CanvasOp.beginPath, CanvasOp.moveTo (JSNum.fin 400) (JSNum.fin 560),
       CanvasOp.lineTo (JSNum.fin 410) (JSNum.fin 560), CanvasOp.stroke,
       CanvasOp.setFillStyle "black", CanvasOp.setFont "12px Arial",
       CanvasOp.fillText "dur" JSNum.nan (JSNum.fin 565)] := by
  norm_num [drawSelectorsJS, drawLineJS, selectorXPos, scaleOr, padOr, idxMap, strOr,
    JSNum.add, JSNum.sub, JSNum.neg, JSNum.mul, JSNum.div, JSNum.abs, JSNum.gtb, JSNum.geb]
  intro h
  exact absurd h (by decide)

/-- C8: when the inter-selector gap exceeds the measured text width the
center label is painted at (x1 + x2) / 2 minus half the text width,
where x1 and x2 are the transformed selector positions, both in
drawSelectors and, with only the center label present, in
drawSelectorsAndIndicators; and when neither the gap, the right side
nor the left side has room, drawSelectors still paints the label at the
fallback centered position instead of failing. -/
theorem selector_label_placement (g : LineGraph) (measure : String → ℚ)
    (p1 p2 : DataPoint) (axisOptions : AxisOptions) (drawOptions : DrawOptions)
    (padTop : ℚ) (text : String) (x1 x2 pb pl pr : ℚ)
    (hx1 : selectorXPos g axisOptions p1.time = x1)
    (hx2 : selectorXPos g axisOptions p2.time = x2)
    (hpb : (padOr axisOptions.padding).bottom.getD 50 = pb)
    (hpl : (padOr axisOptions.padding).left.getD 50 = pl)
    (hpr : (padOr axisOptions.padding).right.getD 50 = pr)
    (htext : text ≠ "") :
    (|x2 - x1| - (10 + 2 + 5) * 2 > measure text →
      CanvasOp.fillText text ((x1 + x2) / 2 - measure text / 2)
          (g.height - pb + padTop + 20 / 2 + 5)
        ∈ drawSelectors g measure [p1, p2] axisOptions drawOptions padTop text)
    ∧ (¬(|x2 - x1| - (10 + 2 + 5) * 2 > measure text) →
       ¬(g.width - x2 - pr - 2 ≥ measure text) →
       ¬(x1 - pl - 2 ≥ measure text) →
      CanvasOp.fillText text ((x1 + x2) / 2 - measure text / 2)
          (g.height - pb + padTop + 20 / 2 + 5)
        ∈ drawSelectors g measure [p1, p2] axisOptions drawOptions padTop text)
    ∧ (x2 - x1 - (10 + 2 + 5) * 2 > measure text →
      CanvasOp.fillText text ((x1 + x2) / 2 - measure text / 2)
          (g.height - pb + padTop + 20 / 2 + 5)
        ∈ drawSelectorsAndIndicators g measure [p1, p2] axisOptions drawOptions padTop
            text "" "" "" "") := by
  have ht : (text != "") = true := by simp [bne_iff_ne, htext]
  refine ⟨?_, ?_, ?_⟩
  · intro h1
    simp only [drawSelectors, List.map_cons, List.map_nil, hx1, hx2, hpb, hpl, hpr,
      List.getD_cons_zero, List.getD_cons_succ, ht, if_true]
    rw [if_pos h1]
    exact List.mem_append_right _ (by simp)
  · intro h1 h2 h3
    simp only [drawSelectors, List.map_cons, List.map_nil, hx1, hx2, hpb, hpl, hpr,
      List.getD_cons_zero, List.getD_cons_succ, ht, if_true]
    rw [if_neg h1, if_neg h2, if_neg h3]
    exact List.mem_append_right _ (by simp)
  · intro h1
    have hge : x2 - x1 - (10 + 2 + 5) * 2 ≥ measure text := le_of_lt h1
    simp only [drawSelectorsAndIndicators, List.map_cons, List.map_nil, hx1, hx2, hpb, hpl, hpr,
      List.getD_cons_zero, List.getD_cons_succ, ht]
    simp only [show ("" != "") = false from rfl, Bool.or_false, Bool.false_or, Bool.true_or,
      Bool.false_and, Bool.and_false, Bool.true_and, Bool.false_eq_true, Bool.or_true,
      eq_self_iff_true, if_true, if_false]
    rw [if_pos hge]
    refine List.mem_append_right _ ?_
    simp

/-- Witness for C8 on an 800 by 600 canvas with x scale 0 to 10 and
markers at times 2 and 8, so selector positions 190 and 610: with text
width 50 the gap rule places the center label at x 375, with text width
1000 no rule fits and the fallback still emits the label at x -100, and
drawSelectorsAndIndicators with only a center label also places it at
x 375. -/
theorem selector_label_placement_witness :
    CanvasOp.fillText "dur" 375 565
        ∈ drawSelectors ⟨800, 600⟩ (fun _ => 50) [⟨2, 0⟩, ⟨8, 0⟩]
            { xScale := some ⟨0, 10, 1, none, none, none⟩ } {} 0 "dur"
    ∧ CanvasOp.fillText "dur" (-100) 565
        ∈ drawSelectors ⟨800, 600⟩ (fun _ => 1000) [⟨2, 0⟩, ⟨8, 0⟩]
            { xScale := some ⟨0, 10, 1, none, none, none⟩ } {} 0 "dur"
    ∧ CanvasOp.fillText "dur" 375 565
        ∈ drawSelectorsAndIndicators ⟨800, 600⟩ (fun _ => 50) [⟨2, 0⟩, ⟨8, 0⟩]
            { xScale := some ⟨0, 10, 1, none, none, none⟩ } {} 0 "dur" "" "" "" "" := by
  have hx1 : selectorXPos ⟨800, 600⟩ { xScale := some ⟨0, 10, 1, none, none, none⟩ }
      (⟨2, 0⟩ : DataPoint).time = 190 := by
    norm_num [selectorXPos, scaleOr, padOr]
  have hx2 : selectorXPos ⟨800, 600⟩ { xScale := some ⟨0, 10, 1, none, none, none⟩ }
      (⟨8, 0⟩ : DataPoint).time = 610 := by
    norm_num [selectorXPos, scaleOr, padOr]
  have hpad : (padOr ({ xScale := some ⟨0, 10, 1, none, none, none⟩ } :
      AxisOptions).padding).bottom.getD 50 = 50 := by norm_num [padOr]
  have hpadl : (padOr ({ xScale := some ⟨0, 10, 1, none, none, none⟩ } :
      AxisOptions).padding).left.getD 50 = 50 := by norm_num [padOr]
  have hpadr : (padOr ({ xScale := some ⟨0, 10, 1, none, none, none⟩ } :
      AxisOptions).padding).right.getD 50 = 50 := by norm_num [padOr]
  refine ⟨?_, ?_, ?_⟩
  · have h := (selector_label_placement ⟨800, 600⟩ (fun _ => 50) ⟨2, 0⟩ ⟨8, 0⟩
      { xScale := some ⟨0, 10, 1, none, none, none⟩ } {} 0 "dur" 190 610 50 50 50
      hx1 hx2 hpad hpadl hpadr (by decide)).1 (by norm_num [abs_of_nonneg])
    norm_num at h
    exact h
  · have h := (selector_label_placement ⟨800, 600⟩ (fun _ => 1000) ⟨2, 0⟩ ⟨8, 0⟩
      { xScale := some ⟨0, 10, 1, none, none, none⟩ } {} 0 "dur" 190 610 50 50 50
      hx1 hx2 hpad hpadl hpadr (by decide)).2.1
      (by norm_num [abs_of_nonneg]) (by norm_num) (by norm_num)
    norm_num at h
    exact h
  · have h := (selector_label_placement ⟨800, 600⟩ (fun _ => 50) ⟨2, 0⟩ ⟨8, 0⟩
      { xScale := some ⟨0, 10, 1, none, none, none⟩ } {} 0 "dur" 190 610 50 50 50
      hx1 hx2 hpad hpadl hpadr (by decide)).2.2 (by norm_num)
    norm_num at h
    exact h

end CanvasLib
